import Mathlib

/-!
Shallow embedding of the `kerbal.py` astrodynamics formula library over the
real numbers, together with theorems settling the specification claims.

Python floats are modelled as real numbers.  Exponentiation with a real
exponent (`** 0.5`, `** 1.5`, `** (1/3)` in the source) is modelled by
`Real.rpow`; integer exponents (`** 2`, `** 3`) by monoid powers.  The one
fallible operation used by the claims, `math.log` (which raises `ValueError`
on non-positive input), is modelled as an `Option`-valued function, so that
the error-propagation behaviour of `deltaV` is visible in the embedding.
-/

noncomputable section

namespace Kerbal

/-- Gravitational constant, `G = 6.67408e-11` in the source. -/
def G : ℝ := 6.67408e-11

/-- Standard surface gravity, `g0 = 9.81` in the source. -/
def g0 : ℝ := 9.81

/-- Kerbin's mass, `KERBINMASS = 5.2915793e+22` in the source. -/
def KERBINMASS : ℝ := 5.2915793e22

/-- Model of Python's `math.log`, which raises `ValueError` (a domain error)
when its argument is not positive and otherwise returns the natural
logarithm. -/
def mathLog (x : ℝ) : Option ℝ :=
  if x ≤ 0 then none else some (Real.log x)

/-- `deltaV(isp, fuel)`: Tsiolkovsky rocket equation
`isp * g0 * math.log(fuel)`.  The domain error of `math.log` propagates to
the caller, hence the `Option` result. -/
def deltaV (isp fuel : ℝ) : Option ℝ :=
  (mathLog fuel).map (fun l => isp * g0 * l)

/-- `wetDryRatio(isp, dv) = math.exp(dv / (isp * g0))`. -/
def wetDryRatio (isp dv : ℝ) : ℝ :=
  Real.exp (dv / (isp * g0))

/-- `semiMajorAxis(peri, apo, r) = (peri + apo) / 2 + r`. -/
def semiMajorAxis (peri apo r : ℝ) : ℝ :=
  (peri + apo) / 2 + r

/-- `semiMajorApo(sma, peri, r) = 2 * (sma - r) - peri`. -/
def semiMajorApo (sma peri r : ℝ) : ℝ :=
  2 * (sma - r) - peri

/-- `semiMajorPeri(sma, apo, r) = 2 * (sma - r) - apo`. -/
def semiMajorPeri (sma apo r : ℝ) : ℝ :=
  2 * (sma - r) - apo

/-- `orbitalPeriod(sma, M) = 2 * math.pi * (sma ** 3 / (G * M)) ** 0.5`. -/
def orbitalPeriod (sma M : ℝ) : ℝ :=
  2 * Real.pi * (sma ^ 3 / (G * M)) ^ (0.5 : ℝ)

/-- `semiMajorPeriod(T, M) = (G * M * T ** 2 / (4 * math.pi ** 2)) ** (1/3)`. -/
def semiMajorPeriod (T M : ℝ) : ℝ :=
  (G * M * T ^ 2 / (4 * Real.pi ^ 2)) ^ ((1 : ℝ) / 3)

/-- `hohmannAngle(h1, h2, r)`: phase angle for a Hohmann transfer.  Python's
`pt % 1` on a float is `pt - floor(pt)`, i.e. `Int.fract pt`. -/
def hohmannAngle (h1 h2 r : ℝ) : ℝ :=
  let pt := 0.5 * ((h1 + h2 + 2 * r) / (2 * r + 2 * h2)) ^ (1.5 : ℝ)
  let ft := Int.fract pt
  let sweep := ft * 360
  180 - sweep

/-- `hohmannVelocity(h1, h2, r, M, singlevalue)`: the two Hohmann burns.
The Python function returns either a single float (`singlevalue=True`) or a
pair (`singlevalue=False`, the default); the varying return type is modelled
by a sum type. -/
def hohmannVelocity (h1 h2 r M : ℝ) (singlevalue : Bool) : ℝ ⊕ ℝ × ℝ :=
  let r1 := h1 + r
  let r2 := h2 + r
  let dv1 := (G * M / r1) ^ (0.5 : ℝ) * ((2 * r2 / (r1 + r2)) ^ (0.5 : ℝ) - 1)
  let dv2 := (G * M / r2) ^ (0.5 : ℝ) * (1 - (2 * r1 / (r1 + r2)) ^ (0.5 : ℝ))
  if singlevalue then Sum.inl (dv1 + dv2) else Sum.inr (dv1, dv2)

/-- `escapeSurface(M, r) = (2 * G * M / r) ** 0.5`. -/
def escapeSurface (M r : ℝ) : ℝ :=
  (2 * G * M / r) ^ (0.5 : ℝ)

/-- `orbitalVelocity(M, r, h, a) = (G * M * (2 / (h + r) - 1 / a)) ** 0.5`. -/
def orbitalVelocity (M r h a : ℝ) : ℝ :=
  let R := h + r
  (G * M * (2 / R - 1 / a)) ^ (0.5 : ℝ)

/-- `escapeOrbit(M, r, h, a) = (2 * G * M / (h + r)) ** 0.5 -
orbitalVelocity(M, r, h, a)`. -/
def escapeOrbit (M r h a : ℝ) : ℝ :=
  let R := h + r
  (2 * G * M / R) ^ (0.5 : ℝ) - orbitalVelocity M r h a

/-- Helper: a real exponent `0.5` power is the square root. -/
theorem rpow_half_eq_sqrt (x : ℝ) : x ^ (0.5 : ℝ) = Real.sqrt x := by
  rw [show (0.5 : ℝ) = 1 / 2 by norm_num, ← Real.sqrt_eq_rpow]

/-- Helper: `deltaV` succeeds on a positive mass ratio and returns the
Tsiolkovsky value. -/
theorem deltaV_eq_some (isp fuel : ℝ) (h : 0 < fuel) :
    deltaV isp fuel = some (isp * g0 * Real.log fuel) := by
  simp [deltaV, mathLog, not_le.mpr h]

/-- Claim C6: for all `peri`, `apo`, `r`,
`semiMajorApo (semiMajorAxis peri apo r) peri r = apo` and symmetrically
`semiMajorPeri (semiMajorAxis peri apo r) apo r = peri`. -/
theorem semiMajorAxis_roundTrip (peri apo r : ℝ) :
    semiMajorApo (semiMajorAxis peri apo r) peri r = apo ∧
    semiMajorPeri (semiMajorAxis peri apo r) apo r = peri := by
  unfold semiMajorApo semiMajorPeri semiMajorAxis
  constructor <;> ring

/-- Claim C9: `escapeOrbit M r h a` is exactly the local escape speed at
body-centred radius `h + r`, as computed by `escapeSurface M (h + r)`, minus
the vis-viva orbital speed `orbitalVelocity M r h a` at the same point. -/
theorem escapeOrbit_eq_escapeSurface_sub_orbitalVelocity (M r h a : ℝ) :
    escapeOrbit M r h a = escapeSurface M (h + r) - orbitalVelocity M r h a := rfl

/-- Claim C1: for `r > 0`, `h2 + r > 0` and `h1 + h2 + 2r > 0`,
`hohmannAngle h1 h2 r` equals `180 - 360 * frac (0.5 * ((h1 + h2 + 2r) /
(2 * (h2 + r))) ^ 1.5)`: 180 degrees minus the target's angular sweep (taken
mod 360) during half the transfer ellipse's period, the period ratio coming
from Kepler's third law. -/
theorem hohmannAngle_spec (h1 h2 r : ℝ) (_hr : 0 < r) (_h2r : 0 < h2 + r)
    (_hsum : 0 < h1 + h2 + 2 * r) :
    hohmannAngle h1 h2 r =
      180 - 360 * Int.fract (0.5 * ((h1 + h2 + 2 * r) / (2 * (h2 + r))) ^ (1.5 : ℝ)) := by
  unfold hohmannAngle
  rw [show (2 * r + 2 * h2 : ℝ) = 2 * (h2 + r) by ring]
  ring

/-- Witness for C1 at `h1 = 0`, `h2 = 0`, `r = 1`. -/
theorem hohmannAngle_spec_witness :
    hohmannAngle 0 0 1 =
      180 - 360 * Int.fract (0.5 * ((0 + 0 + 2 * 1) / (2 * (0 + 1))) ^ (1.5 : ℝ)) :=
  hohmannAngle_spec 0 0 1 (by norm_num) (by norm_num) (by norm_num)

/-- Claim C3: `deltaV` performs no input validation and raises no
domain-specific error: it fails (the logarithm's domain error propagating to
the caller) exactly when the mass ratio is non-positive, and for every
positive mass ratio and every `isp` it returns `isp * g0 * ln(massRatio)`,
with `g0 = 9.81`. -/
theorem deltaV_no_validation :
    (∀ isp fuel : ℝ,
      (deltaV isp fuel = none ↔ fuel ≤ 0) ∧
      (0 < fuel → deltaV isp fuel = some (isp * g0 * Real.log fuel))) ∧
    g0 = 9.81 := by
  refine ⟨fun isp fuel => ⟨?_, fun h => deltaV_eq_some isp fuel h⟩, rfl⟩
  by_cases hf : fuel ≤ 0 <;> simp [deltaV, mathLog, hf]

/-- Witness for C3 at `isp = 1`, `fuel = 1`. -/
theorem deltaV_no_validation_witness :
    deltaV 1 1 = some (1 * g0 * Real.log 1) :=
  (deltaV_no_validation.1 1 1).2 one_pos

/-- Claim C4: for every `isp > 0` and mass ratio `r > 1`,
`wetDryRatio isp (deltaV isp r) = r`, exactly over the reals. -/
theorem wetDryRatio_deltaV_roundTrip (isp r : ℝ) (hisp : 0 < isp) (hr : 1 < r) :
    (deltaV isp r).map (wetDryRatio isp) = some r := by
  have h0 : (0 : ℝ) < r := lt_trans one_pos hr
  rw [deltaV_eq_some isp r h0, Option.map_some']
  have hg : (g0 : ℝ) ≠ 0 := by norm_num [g0]
  unfold wetDryRatio
  rw [mul_div_cancel_left₀ _ (mul_ne_zero (ne_of_gt hisp) hg), Real.exp_log h0]

/-- Witness for C4 at `isp = 1`, `r = 2`. -/
theorem wetDryRatio_deltaV_roundTrip_witness :
    (deltaV 1 2).map (wetDryRatio 1) = some 2 :=
  wetDryRatio_deltaV_roundTrip 1 2 one_pos one_lt_two

/-- Claim C7: for all inputs, the `singlevalue=True` form of
`hohmannVelocity` returns exactly the sum of the two components returned by
the `singlevalue=False` (tuple) form on identical inputs. -/
theorem hohmannVelocity_single_eq_sum (h1 h2 r M a b : ℝ)
    (h : hohmannVelocity h1 h2 r M false = Sum.inr (a, b)) :
    hohmannVelocity h1 h2 r M true = Sum.inl (a + b) := by
  simp only [hohmannVelocity, Bool.false_eq_true, if_false, if_true,
    Sum.inr.injEq, Prod.mk.injEq] at h ⊢
  rw [← h.1, ← h.2]

/-- Witness for C7 at `h1 = 0`, `h2 = 0`, `r = 1`, `M = 0`. -/
theorem hohmannVelocity_single_eq_sum_witness :
    hohmannVelocity 0 0 1 0 true = Sum.inl (0 + 0) :=
  hohmannVelocity_single_eq_sum 0 0 1 0 0 0 (by
    norm_num [hohmannVelocity, Real.one_rpow,
      Real.zero_rpow (show (0.5 : ℝ) ≠ 0 by norm_num)])

/-- Claim C10: swapping the two orbit heights negates and transposes the
Hohmann burns: if `hohmannVelocity h1 h2 r M (tuple form)` is `(dv1, dv2)`,
then swapping `h1` and `h2` yields `(-dv2, -dv1)`, and the `singlevalue`
form is negated. -/
theorem hohmannVelocity_swap_antisymm (h1 h2 r M a b s : ℝ)
    (hp : hohmannVelocity h1 h2 r M false = Sum.inr (a, b))
    (hsv : hohmannVelocity h1 h2 r M true = Sum.inl s) :
    hohmannVelocity h2 h1 r M false = Sum.inr (-b, -a) ∧
    hohmannVelocity h2 h1 r M true = Sum.inl (-s) := by
  simp only [hohmannVelocity, Bool.false_eq_true, if_false, if_true,
    Sum.inr.injEq, Sum.inl.injEq, Prod.mk.injEq] at hp hsv ⊢
  rw [show h2 + r + (h1 + r) = h1 + r + (h2 + r) by ring, ← hp.1, ← hp.2, ← hsv]
  refine ⟨⟨by ring, by ring⟩, by ring⟩

/-- Witness for C10 at `h1 = 0`, `h2 = 0`, `r = 1`, `M = 0`. -/
theorem hohmannVelocity_swap_antisymm_witness :
    hohmannVelocity 0 0 1 0 false = Sum.inr (-0, -0) ∧
    hohmannVelocity 0 0 1 0 true = Sum.inl (-0) :=
  hohmannVelocity_swap_antisymm 0 0 1 0 0 0 0
    (by norm_num [hohmannVelocity, Real.one_rpow,
      Real.zero_rpow (show (0.5 : ℝ) ≠ 0 by norm_num)])
    (by norm_num [hohmannVelocity, Real.one_rpow,
      Real.zero_rpow (show (0.5 : ℝ) ≠ 0 by norm_num)])

/-- Claim C5: for `sma > 0` and `M > 0`,
`semiMajorPeriod (orbitalPeriod sma M) M = sma`: the two Kepler third-law
arrangements are mutually inverse. -/
theorem semiMajorPeriod_orbitalPeriod_roundTrip (sma M : ℝ) (hs : 0 < sma)
    (hM : 0 < M) : semiMajorPeriod (orbitalPeriod sma M) M = sma := by
  have hG : (0 : ℝ) < G := by norm_num [G]
  have hGM : (0 : ℝ) < G * M := mul_pos hG hM
  have hx : (0 : ℝ) ≤ sma ^ 3 / (G * M) := by positivity
  have hsq : ((sma ^ 3 / (G * M)) ^ (0.5 : ℝ)) ^ 2 = sma ^ 3 / (G * M) := by
    rw [← Real.rpow_natCast ((sma ^ 3 / (G * M)) ^ (0.5 : ℝ)) 2,
      ← Real.rpow_mul hx]
    norm_num [Real.rpow_one]
  have hinner : G * M * (orbitalPeriod sma M) ^ 2 / (4 * Real.pi ^ 2) = sma ^ 3 := by
    unfold orbitalPeriod
    rw [mul_pow, mul_pow, hsq]
    field_simp
    ring
  unfold semiMajorPeriod
  rw [hinner, ← Real.rpow_natCast sma 3, ← Real.rpow_mul hs.le]
  norm_num [Real.rpow_one]

/-- Witness for C5 at `sma = 1`, `M = 1`. -/
theorem semiMajorPeriod_orbitalPeriod_roundTrip_witness :
    semiMajorPeriod (orbitalPeriod 1 1) 1 = 1 :=
  semiMajorPeriod_orbitalPeriod_roundTrip 1 1 one_pos one_pos

/-- Claim C8: `deltaV` is strictly increasing in both arguments on
`isp > 0`, `massRatio > 1`: larger `isp` at a fixed ratio, or a larger ratio
at a fixed `isp`, gives strictly more delta-v. -/
theorem deltaV_strictMono :
    (∀ isp1 isp2 r a b : ℝ, 0 < isp1 → isp1 < isp2 → 1 < r →
      deltaV isp1 r = some a → deltaV isp2 r = some b → a < b) ∧
    (∀ isp r1 r2 a b : ℝ, 0 < isp → 1 < r1 → r1 < r2 →
      deltaV isp r1 = some a → deltaV isp r2 = some b → a < b) := by
  have hg : (0 : ℝ) < g0 := by norm_num [g0]
  constructor
  · intro isp1 isp2 r a b _h1 h12 hr ha hb
    rw [deltaV_eq_some _ _ (lt_trans one_pos hr)] at ha hb
    simp only [Option.some.injEq] at ha hb
    subst ha; subst hb
    exact mul_lt_mul_of_pos_right (mul_lt_mul_of_pos_right h12 hg)
      (Real.log_pos hr)
  · intro isp r1 r2 a b hisp hr1 h12 ha hb
    rw [deltaV_eq_some _ _ (lt_trans one_pos hr1)] at ha
    rw [deltaV_eq_some _ _ (lt_trans one_pos (lt_trans hr1 h12))] at hb
    simp only [Option.some.injEq] at ha hb
    subst ha; subst hb
    exact mul_lt_mul_of_pos_left
      (Real.log_lt_log (lt_trans one_pos hr1) h12) (mul_pos hisp hg)

/-- Witness for C8 at `isp1 = 1`, `isp2 = 2`, `r = e`. -/
theorem deltaV_strictMono_witness :
    1 * g0 * Real.log (Real.exp 1) < 2 * g0 * Real.log (Real.exp 1) := by
  have he : (1 : ℝ) < Real.exp 1 := by
    have h := Real.add_one_le_exp 1
    linarith
  exact deltaV_strictMono.1 1 2 (Real.exp 1) _ _ one_pos one_lt_two he
    (deltaV_eq_some 1 (Real.exp 1) (lt_trans one_pos he))
    (deltaV_eq_some 2 (Real.exp 1) (lt_trans one_pos he))

/-- Helper: the surface escape speed of Kerbin is positive. -/
theorem kerbinEscapeSpeed_pos : 0 < Real.sqrt (2 * G * KERBINMASS / 600000) := by
  apply Real.sqrt_pos.mpr
  norm_num [G, KERBINMASS]

/-- Helper: as the semi-major axis tends to infinity, the vis-viva speed at
height 0 over Kerbin tends to the surface escape speed. -/
theorem orbitalVelocity_tendsto_escape :
    Filter.Tendsto (fun a => orbitalVelocity KERBINMASS 600000 0 a)
      Filter.atTop (nhds (Real.sqrt (2 * G * KERBINMASS / 600000))) := by
  have key : (fun a : ℝ => orbitalVelocity KERBINMASS 600000 0 a) =
      fun a : ℝ =>
        Real.sqrt (G * KERBINMASS * (2 / ((0 : ℝ) + 600000) - 1 / a)) := by
    funext a
    simp only [orbitalVelocity, rpow_half_eq_sqrt]
  rw [key]
  have h1 : Filter.Tendsto (fun a : ℝ => 1 / a) Filter.atTop (nhds 0) := by
    simpa [one_div] using tendsto_inv_atTop_zero (𝕜 := ℝ)
  have h2 : Filter.Tendsto (fun a : ℝ => 2 / ((0 : ℝ) + 600000) - 1 / a)
      Filter.atTop (nhds (2 / ((0 : ℝ) + 600000) - 0)) :=
    tendsto_const_nhds.sub h1
  have h3 := h2.const_mul (G * KERBINMASS)
  have h4 := (Real.continuous_sqrt.tendsto _).comp h3
  simp only [Function.comp] at h4
  have hval : G * KERBINMASS * (2 / ((0 : ℝ) + 600000) - 0) =
      2 * G * KERBINMASS / 600000 := by ring
  rw [hval] at h4
  exact h4

/-- Helper: as the semi-major axis tends to infinity, the delta-v returned
by `escapeOrbit` at height 0 over Kerbin tends to 0. -/
theorem escapeOrbit_tendsto_zero :
    Filter.Tendsto (fun a => escapeOrbit KERBINMASS 600000 0 a)
      Filter.atTop (nhds 0) := by
  have key : (fun a : ℝ => escapeOrbit KERBINMASS 600000 0 a) =
      fun a : ℝ =>
        Real.sqrt (2 * G * KERBINMASS / ((0 : ℝ) + 600000)) -
          orbitalVelocity KERBINMASS 600000 0 a := by
    funext a
    simp only [escapeOrbit, rpow_half_eq_sqrt]
  rw [key]
  have hc : Filter.Tendsto
      (fun _ : ℝ => Real.sqrt (2 * G * KERBINMASS / ((0 : ℝ) + 600000)))
      Filter.atTop
      (nhds (Real.sqrt (2 * G * KERBINMASS / ((0 : ℝ) + 600000)))) :=
    tendsto_const_nhds
  have h := hc.sub orbitalVelocity_tendsto_escape
  simpa using h

/-- Claim C2, counterexample: `escapeOrbit(KERBINMASS, 600000, 0, a)` does
NOT converge to the surface escape speed `sqrt (2 G M / r)` as `a → ∞` (it
converges to 0, and the escape speed is positive). -/
theorem escape_scenarioC_counterexample :
    ¬ Filter.Tendsto (fun a => escapeOrbit KERBINMASS 600000 0 a)
      Filter.atTop (nhds (Real.sqrt (2 * G * KERBINMASS / 600000))) := by
  intro hcon
  have h0 := escapeOrbit_tendsto_zero
  have hval : Real.sqrt (2 * G * KERBINMASS / 600000) = 0 :=
    tendsto_nhds_unique hcon h0
  exact absurd hval (ne_of_gt kerbinEscapeSpeed_pos)

/-- Claim C2, amended: `escapeSurface KERBINMASS 600000` equals
`sqrt (2 G M / r)` exactly; as the semi-major axis tends to infinity the
vis-viva speed `orbitalVelocity` at height 0 converges to that same escape
speed, and hence `escapeOrbit` (escape speed minus orbital speed) converges
to 0, not to the escape speed. -/
theorem escape_scenarioC_amended :
    escapeSurface KERBINMASS 600000 = Real.sqrt (2 * G * KERBINMASS / 600000) ∧
    Filter.Tendsto (fun a => orbitalVelocity KERBINMASS 600000 0 a)
      Filter.atTop (nhds (Real.sqrt (2 * G * KERBINMASS / 600000))) ∧
    Filter.Tendsto (fun a => escapeOrbit KERBINMASS 600000 0 a)
      Filter.atTop (nhds 0) :=
  ⟨by simp only [escapeSurface, rpow_half_eq_sqrt],
    orbitalVelocity_tendsto_escape, escapeOrbit_tendsto_zero⟩

end Kerbal
